import Mathlib

/-!
Shallow embedding of the VoiceMemos backend (`src/backend/main.py`) request
policy logic: the `/generate-audio-cloned` transaction (quota accounting with
monthly reset, content-safety filtering, text-generation fallback, the charge
and the speech-synthesis call), plus the `/login`, `/generate-voice-clone`,
`/delete-voice-clone` and `/update-settings` handlers.

External collaborators (MongoDB, the Gemini text generator, the ElevenLabs
speech API, bcrypt) are modelled as explicit inputs: the account document is a
structure, and each external call's outcome is a parameter of the embedded
handler.  Numeric JSON values are modelled as rationals; Python `len(s)//2`
becomes `s.length / 2` on `Nat`.  Python string methods (`lower`, `strip`,
`in`, `startswith`) are re-implemented on `List Char` so that concrete
instances evaluate inside the kernel.
-/

namespace VoiceMemos

/-- A UTC instant, reduced to the fields the code inspects
(`now.month`, `now.year` in the monthly-reset comparison). -/
structure MonthYear where
  month : Nat
  year : Nat
deriving DecidableEq, Repr

/-- The `settings` sub-document of a user document, with the fields the
embedded handlers read (`language`, `voice_similarity`, `stability`,
`add_background_sound`, `background_volume`). -/
structure Settings where
  language : String
  voice_similarity : Rat
  stability : Rat
  add_background_sound : Bool
  background_volume : Rat
deriving DecidableEq, Repr

/-- A user document (`users_collection` row), restricted to the fields the
embedded handlers read and write.  `voice_clone_id = none` models both an
absent field and a stored `null`. -/
structure Account where
  charCount : Nat
  lastCharReset : Option MonthYear
  voice_clone_id : Option String
  loggedIn : Bool
  settings : Settings
deriving DecidableEq, Repr

/-- Python `str.lower()` (code-point-wise lowering). -/
def toLowerStr (s : String) : String :=
  ⟨s.data.map Char.toLower⟩

/-- Python `str.strip()`: remove leading and trailing whitespace. -/
def trimStr (s : String) : String :=
  ⟨((s.data.dropWhile Char.isWhitespace).reverse.dropWhile Char.isWhitespace).reverse⟩

/-- Predicate `leadMatch pat cs` is true iff `pat` is an initial segment of `cs`. -/
def leadMatch : List Char → List Char → Bool
  | [], _ => true
  | _ :: _, [] => false
  | p :: ps, c :: cs => p == c && leadMatch ps cs

/-- Predicate `occursIn pat cs` is true iff `pat` occurs contiguously inside `cs`. -/
def occursIn (pat : List Char) : List Char → Bool
  | [] => leadMatch pat []
  | c :: cs => leadMatch pat (c :: cs) || occursIn pat cs

/-- Python `pat in s` for strings. -/
def strContains (s pat : String) : Bool :=
  occursIn pat.data s.data

/-- Python `s.startswith(pat)`. -/
def startsWithStr (s pat : String) : Bool :=
  leadMatch pat.data s.data

/-- The fixed denylist `inappropriate_patterns` of `_is_likely_inappropriate`. -/
def inappropriatePatterns : List String :=
  ["sex", "porn", "nude", "naked", "xxx", "dildo", "vibrator", "nsfw",
   "fuck", "shit", "ass", "dick", "cock", "pussy", "cunt", "whore",
   "bitch", "slut", "horny", "masturbat", "orgas", "nazi", "kill",
   "murder", "suicide", "rape", "racist", "n-word", "nigger"]

/-- Source `_is_likely_inappropriate(text)`: false on empty text, otherwise a
case-insensitive substring match against the fixed denylist. -/
def isLikelyInappropriate (text : String) : Bool :=
  if text = "" then false
  else inappropriatePatterns.any (fun p => strContains (toLowerStr text) p)

/-- The language test used for both fallback phrases:
`language.lower().startswith("es") or language.lower() == "spanish"`. -/
def isSpanishLang (language : String) : Bool :=
  startsWithStr (toLowerStr language) "es" || toLowerStr language == "spanish"

/-- Source `inappropriate_fallback_text` of `generate_audio`, selected by the
account's configured language. -/
def inappropriateFallbackText (language : String) : String :=
  if isSpanishLang language then
    "Esta mañana me desperté pensando en lo interesante que es la magia y cómo puede sorprender a la gente."
  else
    "This morning I woke up thinking about how interesting magic is and how it can surprise people."

/-- Source `fallback_message_template.format(value=value, topic=topic)` of
`_generate_thought_text`, selected by language. -/
def fallbackMessage (language value topic : String) : String :=
  if isSpanishLang language then
    "Okay, entonces... Esta mañana tuve la sensación de que alguien que conozco está interesado en " ++ value ++ " en relación a " ++ topic ++ "."
  else
    "Okay, so... This morning I had a feeling that someone I know is interested in " ++ value ++ " regarding " ++ topic ++ "."

/-! ### The Gemini call (`_generate_thought_text`) -/

/-- One element of `candidate.content.parts`; `text? = none` models a part
object without a `text` attribute. -/
structure GeminiPart where
  text? : Option String
deriving DecidableEq, Repr

/-- Attribute `candidate.content`, carrying the `parts` attribute. -/
structure GeminiContent where
  parts : List GeminiPart
deriving DecidableEq, Repr

/-- One element of `thought_response.candidates`; `content? = none` models a
candidate without a `content`/`content.parts` attribute chain. -/
structure GeminiCandidate where
  content? : Option GeminiContent
deriving DecidableEq, Repr

/-- A Gemini SDK response object: `text? = none` models a response without a
`text` attribute; `candidates` is the (possibly empty) candidate list. -/
structure GeminiResponse where
  text? : Option String
  candidates : List GeminiCandidate
deriving DecidableEq, Repr

/-- Outcome of attempting the Gemini SDK call inside
`_generate_thought_text`:
`sdkError` = `ImportError`/`NameError`/`AttributeError` from the SDK path,
`raised` = any other exception, `response r` = a response object was
returned. -/
inductive GeminiOutcome where
  | sdkError
  | raised
  | response (r : GeminiResponse)
deriving DecidableEq, Repr

/-- The text-extraction logic applied to a returned response object:
`thought_response.text.strip()` when the `text` attribute exists, else the
first candidate's first part's stripped text when that attribute chain
exists and is non-empty, else the initial value `""`. -/
def responseExtractedText (r : GeminiResponse) : String :=
  match r.text? with
  | some t => trimStr t
  | none =>
    match r.candidates with
    | [] => ""
    | c :: _ =>
      match c.content? with
      | none => ""
      | some content =>
        match content.parts with
        | [] => ""
        | p :: _ =>
          match p.text? with
          | some t => trimStr t
          | none => ""

/-- Source `_generate_thought_text(prompt, topic, value, language)`.  `hasApiKey`
models `GOOGLE_API_KEY` being set; `outcome` is the result of the external
SDK attempt.  Every failure path returns the fallback message; a returned
response object yields its extracted text (possibly `""`). -/
def generateThoughtText (hasApiKey : Bool) (outcome : GeminiOutcome)
    (topic value language : String) : String :=
  if !hasApiKey then fallbackMessage language value topic
  else
    match outcome with
    | .sdkError => fallbackMessage language value topic
    | .raised => fallbackMessage language value topic
    | .response r => responseExtractedText r

/-! ### The `/generate-audio-cloned` transaction (`generate_audio`) -/

/-- A JSON value read from a field expected to be a string:
`str s` is a JSON string, `notStr` any other JSON type. -/
inductive JStr where
  | str (s : String)
  | notStr
deriving DecidableEq, Repr

/-- A JSON value read from a field expected to convert with `float(...)`:
`num q` converts to the rational `q`, `notNum` raises
`ValueError`/`TypeError`. -/
inductive JNum where
  | num (q : Rat)
  | notNum
deriving DecidableEq, Repr

/-- A `/generate-audio-cloned` JSON request body: each field is `none` when
absent (`data.get` returns `None`). -/
structure GenRequest where
  topic? : Option JStr
  value? : Option JStr
  stability? : Option JNum
  similarity_boost? : Option JNum
deriving DecidableEq, Repr

/-- The external world seen by one `generate_audio` request:
`defaultVoiceId` is `ALEX_LATORRE_VOICE_ID or get_alex_latorre_voice_id()`;
`geminiKeySet` and `geminiOutcome` drive `_generate_thought_text`;
`ttsOk` is whether `tts_resp.raise_for_status()` passes, with `ttsStatus`
the upstream HTTP status when it does not. -/
structure GenWorld where
  defaultVoiceId : Option String
  geminiKeySet : Bool
  geminiOutcome : GeminiOutcome
  ttsOk : Bool
  ttsStatus : Nat
deriving DecidableEq, Repr

/-- The payload of the ElevenLabs text-to-speech POST. -/
structure TTSCall where
  text : String
  voiceId : String
  stability : Rat
  similarity_boost : Rat
deriving DecidableEq, Repr

/-- The HTTP-level result of `generate_audio`:
`badRequest` = 400, `noVoice` = the 500 for a missing voice id,
`quotaExceeded used` = 429, `ttsError status` = the propagated synthesis
failure, `audio` = the 200 audio stream. -/
inductive GenResult where
  | badRequest
  | noVoice
  | quotaExceeded (used : Nat)
  | ttsError (status : Nat)
  | audio
deriving DecidableEq, Repr

/-- Observable outcome of one `generate_audio` request: the HTTP result, the
final stored account document, whether the text-generation branch invoked
`_generate_thought_text` with the API key set, and the speech-synthesis call
made (if any). -/
structure GenOutcome where
  result : GenResult
  account : Account
  textGeneratorCalled : Bool
  ttsCall? : Option TTSCall
deriving DecidableEq, Repr

/-- Constant `MONTHLY_CHAR_LIMIT` of `generate_audio`. -/
def MONTHLY_CHAR_LIMIT : Nat := 5000

/-- Validation of `topic`/`value`: present, a string, and non-empty after
`strip()`; yields the stripped value. -/
def validStrField : Option JStr → Option String
  | some (.str s) => if trimStr s = "" then none else some (trimStr s)
  | _ => none

/-- Conversion `float(data.get(field, default))`: an absent field falls back to the
account default, a numeric value converts, anything else is a 400. -/
def numField : Option JNum → Rat → Option Rat
  | none, dflt => some dflt
  | some (.num q), _ => some q
  | some .notNum, _ => none

/-- Resolution `user_clone_id if user_clone_id else (ALEX_LATORRE_VOICE_ID or ...)`:
the account's clone id when present and non-empty, otherwise the
process-wide default voice id. -/
def resolveVoice (acct : Account) (w : GenWorld) : Option String :=
  match acct.voice_clone_id with
  | some id => if id = "" then w.defaultVoiceId else some id
  | none => w.defaultVoiceId

/-- The monthly-reset test: a stored `lastCharReset` whose month or year
differs from now.  (`last_reset` absent skips the reset block.) -/
def needsReset (now : MonthYear) : Option MonthYear → Bool
  | none => false
  | some r => now.month != r.month || now.year != r.year

/-- The quota count `current_user_char_count` actually compared against the
limit: `0` right after a reset, the stored count otherwise. -/
def effectiveCount (now : MonthYear) (acct : Account) : Nat :=
  if needsReset now acct.lastCharReset then 0 else acct.charCount

/-- The `/generate-audio-cloned` handler (`generate_audio`) on a JSON body,
after `token_required` has loaded `acct`.  Faithful to the source order:
voice-settings conversion, `topic`/`value` validation, voice resolution,
monthly reset (persisted), quota pre-check (429), safety filter, text
generation (or fallback), the character charge (persisted), and finally the
speech-synthesis call whose failure propagates. -/
def generateAudio (now : MonthYear) (acct : Account) (req : GenRequest)
    (w : GenWorld) : GenOutcome :=
  match numField req.stability? acct.settings.stability,
        numField req.similarity_boost? acct.settings.voice_similarity with
  | none, _ => ⟨.badRequest, acct, false, none⟩
  | _, none => ⟨.badRequest, acct, false, none⟩
  | some stab, some sim =>
    match validStrField req.topic?, validStrField req.value? with
    | none, _ => ⟨.badRequest, acct, false, none⟩
    | _, none => ⟨.badRequest, acct, false, none⟩
    | some topic, some value =>
      match resolveVoice acct w with
      | none => ⟨.noVoice, acct, false, none⟩
      | some voiceId =>
        let lang := acct.settings.language
        let doReset := needsReset now acct.lastCharReset
        let count := if doReset then 0 else acct.charCount
        let acct1 := if doReset then
            { acct with charCount := 0, lastCharReset := some now }
          else acct
        if MONTHLY_CHAR_LIMIT ≤ count then
          ⟨.quotaExceeded count, acct1, false, none⟩
        else
          let flagged := isLikelyInappropriate topic || isLikelyInappropriate value
          let generatedText :=
            if flagged then inappropriateFallbackText lang
            else generateThoughtText w.geminiKeySet w.geminiOutcome topic value lang
          let acct2 := { acct1 with charCount := count + generatedText.length / 2 }
          let call : TTSCall := ⟨generatedText, voiceId, stab, sim⟩
          if w.ttsOk then
            ⟨.audio, acct2, !flagged && w.geminiKeySet, some call⟩
          else
            ⟨.ttsError w.ttsStatus, acct2, !flagged && w.geminiKeySet, some call⟩

/-! ### The `/login` handler -/

/-- The HTTP-level result of `login`:
`invalidPayload` = 400 bad JSON, `missingFields` = 400,
`invalidCredentials` = 401, `alreadyLoggedInConflict` = 409,
`tokenFailure` = the 500 when `jwt.encode` raises,
`tokenIssued` = 200 with a token. -/
inductive LoginResult where
  | invalidPayload
  | missingFields
  | invalidCredentials
  | alreadyLoggedInConflict
  | tokenFailure
  | tokenIssued
deriving DecidableEq, Repr

/-- Observable outcome of one `login` request: HTTP result plus the stored
state of the matched user row (unchanged when no mutation ran). -/
structure LoginOutcome where
  result : LoginResult
  user? : Option Account
deriving DecidableEq, Repr

/-- The `/login` handler.  `emailOrUsername?`/`password?` are the JSON
fields (`none` when absent; Python falsiness makes `""` count as missing);
`user?` is the `find_one` result for the identifier; `passwordMatches`
models `bcrypt.checkpw`; `encodeOk` models `jwt.encode` not raising.
Password correctness is evaluated before the `loggedIn` conflict check:
`if user and bcrypt.checkpw(...)` guards the whole success branch. -/
def login (emailOrUsername? password? : Option String)
    (user? : Option Account) (passwordMatches encodeOk : Bool) : LoginOutcome :=
  if emailOrUsername?.getD "" = "" ∨ password?.getD "" = "" then
    ⟨.missingFields, user?⟩
  else
    match user? with
    | none => ⟨.invalidCredentials, none⟩
    | some u =>
      if passwordMatches then
        if u.loggedIn then ⟨.alreadyLoggedInConflict, some u⟩
        else if encodeOk then ⟨.tokenIssued, some { u with loggedIn := true }⟩
        else ⟨.tokenFailure, some u⟩
      else ⟨.invalidCredentials, some u⟩

/-! ### The `/delete-voice-clone` handler -/

/-- The HTTP-level result of `delete_voice_clone`: `notFound` = 404,
`upstreamError` = the 500 returned when the ElevenLabs delete raises,
`deleted` = 200. -/
inductive DeleteResult where
  | notFound
  | upstreamError
  | deleted
deriving DecidableEq, Repr

/-- The `/delete-voice-clone` handler.  `extDeleteOk` models the external
DELETE together with `raise_for_status()` succeeding.  The `$unset` of
`voice_clone_id` runs only after a successful external delete: the failure
branch returns 500 with the stored identifier untouched. -/
def deleteVoiceClone (acct : Account) (extDeleteOk : Bool) :
    DeleteResult × Account :=
  if acct.voice_clone_id.getD "" = "" then (.notFound, acct)
  else if extDeleteOk then (.deleted, { acct with voice_clone_id := none })
  else (.upstreamError, acct)

/-! ### The `/generate-voice-clone` handler -/

/-- Parsing of the overwrite flag:
`request.values.get('overwrite', 'false').strip().lower() in ('true', '1')`. -/
def parseOverwrite (raw : Option String) : Bool :=
  let t := toLowerStr (trimStr (raw.getD "false"))
  t == "true" || t == "1"

/-- The external world seen by one `generate_voice_clone` request:
`oldDeleteOk` is whether the pre-overwrite DELETE of the old clone
succeeds; `createResp` is the `/v1/voices/add` POST outcome — `none` a
non-2xx response (`HTTPError`), `some v` a 2xx response whose
`voice_id` field is `v` (`none`/`some ""` count as missing). -/
structure CloneWorld where
  oldDeleteOk : Bool
  createResp : Option (Option String)
deriving DecidableEq, Repr

/-- Which external ElevenLabs calls a `generate_voice_clone` request made. -/
structure CloneEffects where
  extDeleteCalled : Bool
  extCreateCalled : Bool
deriving DecidableEq, Repr

/-- The HTTP-level result of `generate_voice_clone`:
`existingReturned id` = the 200 idempotent short-circuit,
`missingAudio` = 400, `upstreamError` = the propagated ElevenLabs error,
`noVoiceIdInResponse` = 500, `created id` = 200. -/
inductive CloneResult where
  | existingReturned (id : String)
  | missingAudio
  | upstreamError
  | noVoiceIdInResponse
  | created (id : String)
deriving DecidableEq, Repr

/-- Observable outcome of one `generate_voice_clone` request. -/
structure CloneOutcome where
  result : CloneResult
  account : Account
  effects : CloneEffects
deriving DecidableEq, Repr

/-- The `/generate-voice-clone` handler.  `audioFilename?` is the uploaded
file's name (`none` when the `audio` part is absent, `some ""` an empty
filename).  With an existing non-empty clone id and `overwrite` false, the
handler returns the existing id with no external call and no account
mutation.  With `overwrite` true it first attempts the external delete of
the old clone (failure tolerated; success also `$unset`s the stored id),
then validates the audio and performs the creation POST. -/
def generateVoiceClone (acct : Account) (overwriteRaw : Option String)
    (audioFilename? : Option String) (w : CloneWorld) : CloneOutcome :=
  let overwrite := parseOverwrite overwriteRaw
  let existing := acct.voice_clone_id.getD ""
  if existing != "" && !overwrite then
    ⟨.existingReturned existing, acct, ⟨false, false⟩⟩
  else
    let deleteAttempted := existing != "" && overwrite
    let acct1 := if deleteAttempted && w.oldDeleteOk then
        { acct with voice_clone_id := none }
      else acct
    match audioFilename? with
    | none => ⟨.missingAudio, acct1, ⟨deleteAttempted, false⟩⟩
    | some fn =>
      if fn = "" then ⟨.missingAudio, acct1, ⟨deleteAttempted, false⟩⟩
      else
        match w.createResp with
        | none => ⟨.upstreamError, acct1, ⟨deleteAttempted, true⟩⟩
        | some v =>
          if v.getD "" = "" then
            ⟨.noVoiceIdInResponse, acct1, ⟨deleteAttempted, true⟩⟩
          else
            ⟨.created (v.getD ""),
             { acct1 with voice_clone_id := some (v.getD "") },
             ⟨deleteAttempted, true⟩⟩

/-! ### The `/update-settings` handler -/

/-- A JSON value read from a field expected to be a boolean. -/
inductive JBool where
  | bool (b : Bool)
  | notBool
deriving DecidableEq, Repr

/-- An `/update-settings` JSON body: each field is `none` when absent. -/
structure SettingsReq where
  language? : Option JStr
  voice_similarity? : Option JNum
  stability? : Option JNum
  add_background_sound? : Option JBool
  background_volume? : Option JNum
deriving DecidableEq, Repr

/-- The HTTP-level result of `update_settings`: `invalidField` = 400,
`noFields` = the 200 no-op, `updated` = 200 with the merged settings. -/
inductive UpdateResult where
  | invalidField
  | noFields
  | updated
deriving DecidableEq, Repr

/-- Validation of one coefficient field of `update_settings`:
`float(...)` must succeed and the value must satisfy `0.0 <= x <= 1.0`,
otherwise the handler answers 400. -/
def checkCoefficient : Option JNum → Option (Option Rat)
  | none => some none
  | some (.num q) => if 0 ≤ q ∧ q ≤ 1 then some (some q) else none
  | some .notNum => none

/-- Validation of the `language` field of `update_settings`: must be a
string and one of the accepted language names, otherwise a 400. -/
def checkLanguage : Option JStr → Option (Option String)
  | none => some none
  | some (.str s) =>
    if s = "english" ∨ s = "spanish" then some (some s) else none
  | some .notStr => none

/-- Validation of the `add_background_sound` field of `update_settings`:
must be a boolean, otherwise a 400. -/
def checkBgSound : Option JBool → Option (Option Bool)
  | none => some none
  | some (.bool b) => some (some b)
  | some .notBool => none

/-- The `/update-settings` handler.  Fields are validated in source order
(language, voice_similarity, stability, add_background_sound,
background_volume); the first violation answers 400 with nothing stored;
otherwise the provided fields are merged into the stored settings by one
update. -/
def updateSettings (acct : Account) (req : SettingsReq) :
    UpdateResult × Account :=
  match checkLanguage req.language? with
  | none => (.invalidField, acct)
  | some lang? =>
    match checkCoefficient req.voice_similarity? with
    | none => (.invalidField, acct)
    | some sim? =>
      match checkCoefficient req.stability? with
      | none => (.invalidField, acct)
      | some stab? =>
        match checkBgSound req.add_background_sound? with
        | none => (.invalidField, acct)
        | some bg? =>
          match checkCoefficient req.background_volume? with
          | none => (.invalidField, acct)
          | some vol? =>
            if lang?.isNone && sim?.isNone && stab?.isNone &&
                bg?.isNone && vol?.isNone then
              (.noFields, acct)
            else
              (.updated,
               { acct with settings :=
                  { language := lang?.getD acct.settings.language,
                    voice_similarity := sim?.getD acct.settings.voice_similarity,
                    stability := stab?.getD acct.settings.stability,
                    add_background_sound :=
                      bg?.getD acct.settings.add_background_sound,
                    background_volume :=
                      vol?.getD acct.settings.background_volume } })

end VoiceMemos

namespace VoiceMemos

/-! ### Derived definitions and concrete fixtures -/

/-- The text the transaction feeds to speech synthesis: the fixed fallback
phrase when the safety filter flags either field, otherwise the
`_generate_thought_text` result. -/
def transactionText (acct : Account) (w : GenWorld) (topic value : String) : String :=
  if isLikelyInappropriate topic || isLikelyInappropriate value then
    inappropriateFallbackText acct.settings.language
  else
    generateThoughtText w.geminiKeySet w.geminiOutcome topic value acct.settings.language

/-- Rational 0.70, the default `stability` setting. -/
def q07 : Rat := { num := 7, den := 10, den_nz := by decide, reduced := by decide }

/-- Rational 0.85, the default `voice_similarity` setting. -/
def q085 : Rat := { num := 17, den := 20, den_nz := by decide, reduced := by decide }

/-- Rational 0.5, the default `background_volume` setting. -/
def q05 : Rat := { num := 1, den := 2, den_nz := by decide, reduced := by decide }

/-- Rational 2.5, an out-of-range coefficient. -/
def q52 : Rat := { num := 5, den := 2, den_nz := by decide, reduced := by decide }

/-- The default settings document written at registration. -/
def enSettings : Settings := ⟨"english", q085, q07, true, q05⟩

/-- A demo account: 100 characters used, reset in May 2025, owns clone `"v1"`. -/
def demoAcct : Account := ⟨100, some ⟨5, 2025⟩, some "v1", false, enSettings⟩

/-- A well-formed request with no overrides. -/
def demoReq : GenRequest := ⟨some (.str "travel"), some (.str "Paris"), none, none⟩

/-- A world where the Gemini call raises and the TTS call fails with 500. -/
def ttsFailWorld : GenWorld := ⟨none, false, .raised, false, 500⟩

/-- A world where the Gemini call raises and the TTS call succeeds. -/
def ttsOkWorld : GenWorld := ⟨none, false, .raised, true, 200⟩

/-- An account exactly at the 5000-character ceiling in the current month. -/
def atLimitAcct : Account := ⟨5000, some ⟨5, 2025⟩, some "v1", false, enSettings⟩

/-- An account carrying 4999 characters from a prior calendar month. -/
def staleAcct : Account := ⟨4999, some ⟨4, 2025⟩, some "v1", false, enSettings⟩

/-- A request whose topic is the denylisted word "sex". -/
def flaggedReq : GenRequest := ⟨some (.str "sex"), some (.str "Paris"), none, none⟩

/-- An ElevenLabs world where both delete and create would succeed. -/
def cloneOkWorld : CloneWorld := ⟨true, some (some "v2")⟩

/-- An account whose session-active flag is already true. -/
def loggedInAcct : Account := ⟨100, some ⟨5, 2025⟩, some "v1", true, enSettings⟩

/-- A well-formed request overriding `stability` with the out-of-range 2.5. -/
def overrideReq : GenRequest :=
  ⟨some (.str "travel"), some (.str "Paris"), some (.num q52), none⟩

/-- A settings request carrying the out-of-range stability 2.5. -/
def badSettingsReq : SettingsReq := ⟨none, none, some (.num q52), none, none⟩

/-! ### Theorems -/

theorem q07_eq : q07 = 0.7 := by
  rw [q07, Rat.mk'_eq_divInt]; norm_num [Rat.divInt_eq_div]

theorem q085_eq : q085 = 0.85 := by
  rw [q085, Rat.mk'_eq_divInt]; norm_num [Rat.divInt_eq_div]

/-- Characterization of a well-formed, under-quota `generate_audio` run:
the reset is applied when due, the charge lands before the synthesis
outcome is examined, and the synthesis call carries `transactionText`. -/
theorem generateAudio_run (now : MonthYear) (acct : Account)
    (req : GenRequest) (w : GenWorld) (stab sim : Rat) (topic value voiceId : String)
    (hstab : numField req.stability? acct.settings.stability = some stab)
    (hsim : numField req.similarity_boost? acct.settings.voice_similarity = some sim)
    (htopic : validStrField req.topic? = some topic)
    (hvalue : validStrField req.value? = some value)
    (hvoice : resolveVoice acct w = some voiceId)
    (hcount : effectiveCount now acct < MONTHLY_CHAR_LIMIT) :
    generateAudio now acct req w =
      ⟨if w.ttsOk then .audio else .ttsError w.ttsStatus,
       { charCount := effectiveCount now acct +
           (transactionText acct w topic value).length / 2,
         lastCharReset :=
           if needsReset now acct.lastCharReset then some now else acct.lastCharReset,
         voice_clone_id := acct.voice_clone_id,
         loggedIn := acct.loggedIn,
         settings := acct.settings },
       !(isLikelyInappropriate topic || isLikelyInappropriate value) && w.geminiKeySet,
       some ⟨transactionText acct w topic value, voiceId, stab, sim⟩⟩ := by
  unfold generateAudio
  rw [hstab, hsim, htopic, hvalue, hvoice]
  unfold effectiveCount at hcount
  unfold transactionText effectiveCount
  cases hr : needsReset now acct.lastCharReset with
  | true =>
    rw [hr] at hcount
    simp only [hr, if_true, ite_true]
    have h0 : ¬ (MONTHLY_CHAR_LIMIT ≤ 0) := by simp [MONTHLY_CHAR_LIMIT]
    rw [if_neg h0]
    cases hts : w.ttsOk <;> simp
  | false =>
    rw [hr] at hcount
    simp only [Bool.false_eq_true, if_false, ite_false] at hcount
    simp only [hr, Bool.false_eq_true, if_false, ite_false]
    rw [if_neg (Nat.not_le.mpr hcount)]
    cases hts : w.ttsOk <;> simp

/-- A validated coefficient field merged over an in-range default stays in
`[0, 1]`. -/
theorem checkCoefficient_getD (f : Option JNum) (x? : Option Rat) (dflt : Rat)
    (h : checkCoefficient f = some x?) (hd : 0 ≤ dflt ∧ dflt ≤ 1) :
    0 ≤ x?.getD dflt ∧ x?.getD dflt ≤ 1 := by
  cases f with
  | none =>
    simp only [checkCoefficient, Option.some.injEq] at h
    subst h
    simpa using hd
  | some j =>
    cases j with
    | num q =>
      by_cases hq : 0 ≤ q ∧ q ≤ 1
      · simp only [checkCoefficient, if_pos hq, Option.some.injEq] at h
        subst h
        simpa using hq
      · simp [checkCoefficient, if_neg hq] at h
    | notNum => simp [checkCoefficient] at h

/-- Every `update_settings` run either leaves the account untouched (the
400 and no-op paths) or stores settings merged from validated fields. -/
theorem updateSettings_cases (acct : Account) (req : SettingsReq)
    (out : UpdateResult × Account) (h : updateSettings acct req = out) :
    out.2 = acct ∨
    ∃ (lang? : Option String) (sim? stab? : Option Rat)
      (bg? : Option Bool) (vol? : Option Rat),
      checkCoefficient req.voice_similarity? = some sim? ∧
      checkCoefficient req.stability? = some stab? ∧
      checkCoefficient req.background_volume? = some vol? ∧
      out.2 =
        { acct with settings :=
           { language := lang?.getD acct.settings.language,
             voice_similarity := sim?.getD acct.settings.voice_similarity,
             stability := stab?.getD acct.settings.stability,
             add_background_sound :=
               bg?.getD acct.settings.add_background_sound,
             background_volume :=
               vol?.getD acct.settings.background_volume } } := by
  unfold updateSettings at h
  split at h
  · left; rw [← h]
  case _ lang? hl =>
    split at h
    · left; rw [← h]
    case _ sim? hs =>
      split at h
      · left; rw [← h]
      case _ stab? ht =>
        split at h
        · left; rw [← h]
        case _ bg? hb =>
          split at h
          · left; rw [← h]
          case _ vol? hv =>
            split at h
            · left; rw [← h]
            · right
              exact ⟨lang?, sim?, stab?, bg?, vol?, hs, ht, hv, by rw [← h]⟩

/-- An out-of-range numeric `stability` field makes `update_settings`
answer 400 with the account unchanged. -/
theorem updateSettings_rejects (acct : Account) (req : SettingsReq) (q : Rat)
    (hq : req.stability? = some (.num q)) (hrange : ¬ (0 ≤ q ∧ q ≤ 1)) :
    updateSettings acct req = (.invalidField, acct) := by
  have hst : checkCoefficient req.stability? = none := by
    rw [hq]; simp [checkCoefficient, if_neg hrange]
  unfold updateSettings
  split
  · rfl
  · split
    · rfl
    · split
      · rfl
      case _ stab? heq => rw [hst] at heq; cases heq

/-- C1 counterexample: for `demoAcct` (count 100, same month) and a valid
request, a failing synthesis call (HTTP 500) still leaves the stored
character count increased from 100 to 150 — the claim that a non-success
synthesizer response leaves the stored count unchanged is false. -/
theorem C1_counterexample :
    (generateAudio ⟨5, 2025⟩ demoAcct demoReq ttsFailWorld).result = .ttsError 500 ∧
    (generateAudio ⟨5, 2025⟩ demoAcct demoReq ttsFailWorld).account.charCount = 150 ∧
    demoAcct.charCount = 100 :=
  ⟨by decide, by decide, by decide⟩

/-- C1 amended: in the `/generate-audio-cloned` transaction the
half-length charge is applied after text generation but before the
speech-synthesis call, so for every request in which the synthesizer
returns a non-success response the stored character count has already been
increased by half the generated text's length. -/
theorem C1_theorem (now : MonthYear) (acct : Account)
    (req : GenRequest) (w : GenWorld) (stab sim : Rat) (topic value voiceId : String)
    (hstab : numField req.stability? acct.settings.stability = some stab)
    (hsim : numField req.similarity_boost? acct.settings.voice_similarity = some sim)
    (htopic : validStrField req.topic? = some topic)
    (hvalue : validStrField req.value? = some value)
    (hvoice : resolveVoice acct w = some voiceId)
    (hcount : effectiveCount now acct < MONTHLY_CHAR_LIMIT)
    (hts : w.ttsOk = false) :
    (generateAudio now acct req w).result = .ttsError w.ttsStatus ∧
    (generateAudio now acct req w).account.charCount =
      effectiveCount now acct + (transactionText acct w topic value).length / 2 := by
  rw [generateAudio_run now acct req w stab sim topic value voiceId
    hstab hsim htopic hvalue hvoice hcount]
  simp [hts]

/-- C1 witness: the amended theorem applied at the concrete input of the
counterexample. -/
theorem C1_witness :
    (generateAudio ⟨5, 2025⟩ demoAcct demoReq ttsFailWorld).result = .ttsError 500 ∧
    (generateAudio ⟨5, 2025⟩ demoAcct demoReq ttsFailWorld).account.charCount =
      effectiveCount ⟨5, 2025⟩ demoAcct +
        (transactionText demoAcct ttsFailWorld "travel" "Paris").length / 2 :=
  C1_theorem ⟨5, 2025⟩ demoAcct demoReq ttsFailWorld q07 q085 "travel" "Paris" "v1"
    (by decide) (by decide) (by decide) (by decide) (by decide) (by decide) (by decide)

/-- C2: a well-formed `/generate-audio-cloned` request by an account whose
current-month accumulated character count is at least `MONTHLY_CHAR_LIMIT`
(5000) answers 429 with no text-generation and no synthesis call, and the
stored account document is unchanged. -/
theorem C2_theorem (now : MonthYear) (acct : Account)
    (req : GenRequest) (w : GenWorld) (stab sim : Rat) (topic value voiceId : String)
    (hstab : numField req.stability? acct.settings.stability = some stab)
    (hsim : numField req.similarity_boost? acct.settings.voice_similarity = some sim)
    (htopic : validStrField req.topic? = some topic)
    (hvalue : validStrField req.value? = some value)
    (hvoice : resolveVoice acct w = some voiceId)
    (hcount : MONTHLY_CHAR_LIMIT ≤ effectiveCount now acct) :
    generateAudio now acct req w =
      ⟨.quotaExceeded acct.charCount, acct, false, none⟩ := by
  have hnr : needsReset now acct.lastCharReset = false := by
    cases hx : needsReset now acct.lastCharReset with
    | false => rfl
    | true =>
      unfold effectiveCount at hcount
      rw [hx] at hcount
      simp [MONTHLY_CHAR_LIMIT] at hcount
  unfold effectiveCount at hcount
  rw [hnr] at hcount
  simp only [Bool.false_eq_true, if_false, ite_false] at hcount
  unfold generateAudio
  rw [hstab, hsim, htopic, hvalue, hvoice]
  simp only [hnr, Bool.false_eq_true, ite_false, if_false]
  rw [if_pos hcount]

/-- C2 witness: the at-limit account gets a 429 and is left unchanged. -/
theorem C2_witness :
    generateAudio ⟨5, 2025⟩ atLimitAcct demoReq ttsOkWorld =
      ⟨.quotaExceeded atLimitAcct.charCount, atLimitAcct, false, none⟩ :=
  C2_theorem ⟨5, 2025⟩ atLimitAcct demoReq ttsOkWorld q07 q085 "travel" "Paris" "v1"
    (by decide) (by decide) (by decide) (by decide) (by decide) (by decide)

/-- C3: when the stored reset timestamp is from a different (month, year)
than the current one, a well-formed request resets the count to 0 and
stores the new timestamp before the limit is evaluated: the request is
never answered with 429, and the count stored afterwards is exactly the
charge on the new text, independent of the carried-over count. -/
theorem C3_theorem (now : MonthYear) (acct : Account)
    (req : GenRequest) (w : GenWorld) (stab sim : Rat) (topic value voiceId : String)
    (r : MonthYear)
    (hstab : numField req.stability? acct.settings.stability = some stab)
    (hsim : numField req.similarity_boost? acct.settings.voice_similarity = some sim)
    (htopic : validStrField req.topic? = some topic)
    (hvalue : validStrField req.value? = some value)
    (hvoice : resolveVoice acct w = some voiceId)
    (hlast : acct.lastCharReset = some r)
    (hdiff : r.month ≠ now.month ∨ r.year ≠ now.year) :
    (generateAudio now acct req w).account.lastCharReset = some now ∧
    (generateAudio now acct req w).account.charCount =
      (transactionText acct w topic value).length / 2 ∧
    ∀ u, (generateAudio now acct req w).result ≠ .quotaExceeded u := by
  have hr : needsReset now acct.lastCharReset = true := by
    simp only [hlast, needsReset, Bool.or_eq_true, bne_iff_ne]
    exact hdiff.imp Ne.symm Ne.symm
  have hcount : effectiveCount now acct < MONTHLY_CHAR_LIMIT := by
    simp [effectiveCount, hr, MONTHLY_CHAR_LIMIT]
  rw [generateAudio_run now acct req w stab sim topic value voiceId
    hstab hsim htopic hvalue hvoice hcount]
  refine ⟨by simp [hr], by simp [effectiveCount, hr], ?_⟩
  intro u
  cases hts : w.ttsOk <;> simp

/-- C3 witness: in the new month the 4999-count account is reset and
allowed to proceed. -/
theorem C3_witness :
    (generateAudio ⟨5, 2025⟩ staleAcct demoReq ttsOkWorld).account.lastCharReset =
      some ⟨5, 2025⟩ ∧
    (generateAudio ⟨5, 2025⟩ staleAcct demoReq ttsOkWorld).account.charCount =
      (transactionText staleAcct ttsOkWorld "travel" "Paris").length / 2 ∧
    ∀ u, (generateAudio ⟨5, 2025⟩ staleAcct demoReq ttsOkWorld).result ≠
      .quotaExceeded u :=
  C3_theorem ⟨5, 2025⟩ staleAcct demoReq ttsOkWorld q07 q085 "travel" "Paris" "v1"
    ⟨4, 2025⟩ (by decide) (by decide) (by decide) (by decide) (by decide) (by decide)
    (by decide)

/-- C4: when the safety filter flags the (stripped) topic or value of a
well-formed, under-quota request, the text-generation branch is never
entered and the synthesis call is made with exactly the fixed fallback
phrase selected by the account's configured language. -/
theorem C4_theorem (now : MonthYear) (acct : Account)
    (req : GenRequest) (w : GenWorld) (stab sim : Rat) (topic value voiceId : String)
    (hstab : numField req.stability? acct.settings.stability = some stab)
    (hsim : numField req.similarity_boost? acct.settings.voice_similarity = some sim)
    (htopic : validStrField req.topic? = some topic)
    (hvalue : validStrField req.value? = some value)
    (hvoice : resolveVoice acct w = some voiceId)
    (hcount : effectiveCount now acct < MONTHLY_CHAR_LIMIT)
    (hflag : (isLikelyInappropriate topic || isLikelyInappropriate value) = true) :
    (generateAudio now acct req w).textGeneratorCalled = false ∧
    (generateAudio now acct req w).ttsCall? =
      some ⟨inappropriateFallbackText acct.settings.language, voiceId, stab, sim⟩ := by
  rw [generateAudio_run now acct req w stab sim topic value voiceId
    hstab hsim htopic hvalue hvoice hcount]
  simp [transactionText, hflag]

/-- C4 witness: topic "sex" routes to the fixed English fallback phrase and
the text generator is not called. -/
theorem C4_witness :
    (generateAudio ⟨5, 2025⟩ demoAcct flaggedReq ttsOkWorld).textGeneratorCalled = false ∧
    (generateAudio ⟨5, 2025⟩ demoAcct flaggedReq ttsOkWorld).ttsCall? =
      some ⟨inappropriateFallbackText demoAcct.settings.language, "v1", q07, q085⟩ :=
  C4_theorem ⟨5, 2025⟩ demoAcct flaggedReq ttsOkWorld q07 q085 "sex" "Paris" "v1"
    (by decide) (by decide) (by decide) (by decide) (by decide) (by decide) (by decide)

/-- C5 counterexample: for an account owning clone `"v1"` and a failing
external delete, `delete_voice_clone` answers 500 and the stored
identifier is NOT cleared — the claim that the identifier is cleared
unconditionally is false. -/
theorem C5_counterexample :
    (deleteVoiceClone demoAcct false).1 = .upstreamError ∧
    (deleteVoiceClone demoAcct false).2.voice_clone_id = some "v1" :=
  ⟨by decide, by decide⟩

/-- C5 amended: `delete_voice_clone` answers 404 when the account owns no
(non-empty) clone identifier; otherwise it attempts the external delete
and clears the stored identifier only when that delete succeeded — on an
external failure it answers 500 and leaves the identifier in place. -/
theorem C5_theorem (acct : Account) (extDeleteOk : Bool) :
    (acct.voice_clone_id.getD "" = "" →
       deleteVoiceClone acct extDeleteOk = (.notFound, acct)) ∧
    (acct.voice_clone_id.getD "" ≠ "" → extDeleteOk = true →
       deleteVoiceClone acct extDeleteOk =
         (.deleted, { acct with voice_clone_id := none })) ∧
    (acct.voice_clone_id.getD "" ≠ "" → extDeleteOk = false →
       deleteVoiceClone acct extDeleteOk = (.upstreamError, acct)) := by
  unfold deleteVoiceClone
  by_cases h : acct.voice_clone_id.getD "" = "" <;> simp [h]

/-- C5 witness: the amended theorem applied to `demoAcct` with a
succeeding external delete. -/
theorem C5_witness :
    deleteVoiceClone demoAcct true =
      (.deleted, { demoAcct with voice_clone_id := none }) :=
  (C5_theorem demoAcct true).2.1 (by decide) rfl

/-- C6: for an account that already owns a non-empty clone identifier, a
`/generate-voice-clone` request whose `overwrite` flag parses to false
returns the existing identifier with no external ElevenLabs call and no
account mutation; a second identical call returns the same identifier. -/
theorem C6_theorem (acct : Account) (raw audioFilename? : Option String)
    (w : CloneWorld) (id : String)
    (hid : acct.voice_clone_id = some id) (hne : id ≠ "")
    (hov : parseOverwrite raw = false) :
    generateVoiceClone acct raw audioFilename? w =
      ⟨.existingReturned id, acct, ⟨false, false⟩⟩ ∧
    (generateVoiceClone
        (generateVoiceClone acct raw audioFilename? w).account
        raw audioFilename? w).result = .existingReturned id := by
  have h1 : generateVoiceClone acct raw audioFilename? w =
      ⟨.existingReturned id, acct, ⟨false, false⟩⟩ := by
    unfold generateVoiceClone
    simp [hid, hov, hne]
  refine ⟨h1, ?_⟩
  rw [h1]
  show (generateVoiceClone acct raw audioFilename? w).result = _
  rw [h1]

/-- C6 witness: `demoAcct` (clone `"v1"`) with `overwrite=false` twice. -/
theorem C6_witness :
    generateVoiceClone demoAcct (some "false") (some "a.wav") cloneOkWorld =
      ⟨.existingReturned "v1", demoAcct, ⟨false, false⟩⟩ ∧
    (generateVoiceClone
        (generateVoiceClone demoAcct (some "false") (some "a.wav") cloneOkWorld).account
        (some "false") (some "a.wav") cloneOkWorld).result = .existingReturned "v1" :=
  C6_theorem demoAcct (some "false") (some "a.wav") cloneOkWorld "v1"
    (by decide) (by decide) (by decide)

/-- C7 counterexample: a login attempt for the already-logged-in account
with an incorrect password answers 401 invalid-credentials, not the 409
conflict — the claim "fails with a conflict regardless of credential
correctness" is false. -/
theorem C7_counterexample :
    login (some "alex@example.com") (some "wrongpw") (some loggedInAcct) false true =
      ⟨.invalidCredentials, some loggedInAcct⟩ ∧
    (LoginResult.invalidCredentials ≠ .alreadyLoggedInConflict) :=
  ⟨by decide, by decide⟩

/-- C7 amended: for an account whose session-active flag is already true,
a login attempt with correct credentials answers 409 conflict with no
token issued and no state change; with incorrect credentials it answers
401 invalid-credentials. -/
theorem C7_theorem (e p : Option String) (u : Account) (encodeOk : Bool)
    (he : e.getD "" ≠ "") (hp : p.getD "" ≠ "") (hl : u.loggedIn = true) :
    login e p (some u) true encodeOk = ⟨.alreadyLoggedInConflict, some u⟩ ∧
    login e p (some u) false encodeOk = ⟨.invalidCredentials, some u⟩ := by
  unfold login
  simp [he, hp, hl]

/-- C7 witness: the amended theorem at a concrete logged-in account. -/
theorem C7_witness :
    login (some "alex@example.com") (some "pw") (some loggedInAcct) true true =
      ⟨.alreadyLoggedInConflict, some loggedInAcct⟩ ∧
    login (some "alex@example.com") (some "pw") (some loggedInAcct) false true =
      ⟨.invalidCredentials, some loggedInAcct⟩ :=
  C7_theorem (some "alex@example.com") (some "pw") loggedInAcct true
    (by decide) (by decide) (by decide)

/-- C8 counterexample: a Gemini call that returns a response object with no
`text` attribute and no candidates yields the empty string, not the fixed
fallback phrase — the claim that every text-generation failure (including
a missing text field) substitutes the fallback is false. -/
theorem C8_counterexample :
    generateThoughtText true (.response ⟨none, []⟩) "travel" "Paris" "english" = "" ∧
    generateThoughtText true (.response ⟨none, []⟩) "travel" "Paris" "english" ≠
      fallbackMessage "english" "Paris" "travel" :=
  ⟨by decide, by decide⟩

/-- C8 amended: `_generate_thought_text` never raises (it totally returns a
string, so text generation never fails the request): a missing API key, an
SDK error, or any other exception yields the fixed fallback message, while
a returned response object with no extractable text yields the empty
string rather than the fallback. -/
theorem C8_theorem (topic value language : String) (outcome : GeminiOutcome)
    (r : GeminiResponse) (hr : r.text? = none) (hc : r.candidates = []) :
    generateThoughtText false outcome topic value language =
      fallbackMessage language value topic ∧
    generateThoughtText true .sdkError topic value language =
      fallbackMessage language value topic ∧
    generateThoughtText true .raised topic value language =
      fallbackMessage language value topic ∧
    generateThoughtText true (.response r) topic value language = "" := by
  refine ⟨?_, rfl, rfl, ?_⟩
  · cases outcome <;> rfl
  · simp [generateThoughtText, responseExtractedText, hr, hc]

/-- C8 witness: the amended theorem at concrete inputs. -/
theorem C8_witness :
    generateThoughtText false .raised "travel" "Paris" "english" =
      fallbackMessage "english" "Paris" "travel" ∧
    generateThoughtText true .sdkError "travel" "Paris" "english" =
      fallbackMessage "english" "Paris" "travel" ∧
    generateThoughtText true .raised "travel" "Paris" "english" =
      fallbackMessage "english" "Paris" "travel" ∧
    generateThoughtText true (.response ⟨none, []⟩) "travel" "Paris" "english" = "" :=
  C8_theorem "travel" "Paris" "english" .raised ⟨none, []⟩ rfl rfl

/-- C9 counterexample: `/generate-audio-cloned` accepts a `stability`
override of 2.5, succeeds, and sends 2.5 to the synthesizer — a
coefficient outside `[0.0, 1.0]` is used, so the claim that no operation
ever uses an out-of-range coefficient is false. -/
theorem C9_counterexample :
    (generateAudio ⟨5, 2025⟩ demoAcct overrideReq ttsOkWorld).result = .audio ∧
    ((generateAudio ⟨5, 2025⟩ demoAcct overrideReq ttsOkWorld).ttsCall?.map
        TTSCall.stability) = some q52 ∧
    ¬ (q52 ≤ 1) :=
  ⟨by decide, by decide, by decide⟩

/-- C9 amended: `/update-settings` keeps every stored coefficient in
`[0.0, 1.0]` — merging any request into in-range stored settings yields
in-range stored settings, and a provided out-of-range numeric `stability`
is rejected with 400 and no state change — but the `stability` and
`similarity_boost` overrides of `/generate-audio-cloned` are only checked
to be numbers, not range-checked, so a request can use a coefficient
outside `[0.0, 1.0]`. -/
theorem C9_theorem (acct : Account) (req : SettingsReq)
    (h1 : 0 ≤ acct.settings.voice_similarity ∧ acct.settings.voice_similarity ≤ 1)
    (h2 : 0 ≤ acct.settings.stability ∧ acct.settings.stability ≤ 1)
    (h3 : 0 ≤ acct.settings.background_volume ∧ acct.settings.background_volume ≤ 1) :
    (0 ≤ (updateSettings acct req).2.settings.voice_similarity ∧
       (updateSettings acct req).2.settings.voice_similarity ≤ 1) ∧
    (0 ≤ (updateSettings acct req).2.settings.stability ∧
       (updateSettings acct req).2.settings.stability ≤ 1) ∧
    (0 ≤ (updateSettings acct req).2.settings.background_volume ∧
       (updateSettings acct req).2.settings.background_volume ≤ 1) ∧
    (∀ q : Rat, req.stability? = some (.num q) → ¬ (0 ≤ q ∧ q ≤ 1) →
       updateSettings acct req = (.invalidField, acct)) := by
  refine ⟨?_, ?_, ?_, fun q hq hrange => updateSettings_rejects acct req q hq hrange⟩ <;>
    rcases updateSettings_cases acct req _ rfl with h | ⟨l?, s?, t?, b?, v?, hs, ht, hv, h⟩
  · rw [h]; exact h1
  · rw [h]; exact checkCoefficient_getD _ _ _ hs h1
  · rw [h]; exact h2
  · rw [h]; exact checkCoefficient_getD _ _ _ ht h2
  · rw [h]; exact h3
  · rw [h]; exact checkCoefficient_getD _ _ _ hv h3

/-- C9 witness: the amended theorem applied at `demoAcct` and the
out-of-range settings request. -/
theorem C9_witness :
    (0 ≤ (updateSettings demoAcct badSettingsReq).2.settings.voice_similarity ∧
       (updateSettings demoAcct badSettingsReq).2.settings.voice_similarity ≤ 1) ∧
    (0 ≤ (updateSettings demoAcct badSettingsReq).2.settings.stability ∧
       (updateSettings demoAcct badSettingsReq).2.settings.stability ≤ 1) ∧
    (0 ≤ (updateSettings demoAcct badSettingsReq).2.settings.background_volume ∧
       (updateSettings demoAcct badSettingsReq).2.settings.background_volume ≤ 1) ∧
    (∀ q : Rat, badSettingsReq.stability? = some (.num q) → ¬ (0 ≤ q ∧ q ≤ 1) →
       updateSettings demoAcct badSettingsReq = (.invalidField, demoAcct)) :=
  C9_theorem demoAcct badSettingsReq (by decide) (by decide) (by decide)

/-- C10: when the safety filter flags a well-formed, under-quota request,
the stored character count is still charged with half the length of the
fixed fallback phrase, even though the text generator was never invoked. -/
theorem C10_theorem (now : MonthYear) (acct : Account)
    (req : GenRequest) (w : GenWorld) (stab sim : Rat) (topic value voiceId : String)
    (hstab : numField req.stability? acct.settings.stability = some stab)
    (hsim : numField req.similarity_boost? acct.settings.voice_similarity = some sim)
    (htopic : validStrField req.topic? = some topic)
    (hvalue : validStrField req.value? = some value)
    (hvoice : resolveVoice acct w = some voiceId)
    (hcount : effectiveCount now acct < MONTHLY_CHAR_LIMIT)
    (hflag : (isLikelyInappropriate topic || isLikelyInappropriate value) = true) :
    (generateAudio now acct req w).textGeneratorCalled = false ∧
    (generateAudio now acct req w).account.charCount =
      effectiveCount now acct +
        (inappropriateFallbackText acct.settings.language).length / 2 := by
  rw [generateAudio_run now acct req w stab sim topic value voiceId
    hstab hsim htopic hvalue hvoice hcount]
  simp [transactionText, hflag]

/-- C10 witness: the flagged request charges half the English fallback
phrase's length (94 / 2 = 47) on top of the 100 already used. -/
theorem C10_witness :
    (generateAudio ⟨5, 2025⟩ demoAcct flaggedReq ttsOkWorld).textGeneratorCalled = false ∧
    (generateAudio ⟨5, 2025⟩ demoAcct flaggedReq ttsOkWorld).account.charCount =
      effectiveCount ⟨5, 2025⟩ demoAcct +
        (inappropriateFallbackText demoAcct.settings.language).length / 2 :=
  C10_theorem ⟨5, 2025⟩ demoAcct flaggedReq ttsOkWorld q07 q085 "sex" "Paris" "v1"
    (by decide) (by decide) (by decide) (by decide) (by decide) (by decide) (by decide)

end VoiceMemos
